import Mathlib

set_option autoImplicit false

/-!
Shallow embedding of the terminai MCP core: the tool registry
(`terminai/tools/manager.py`), the discovery bridge
(`terminai/tools/mcp_tools.py`), the connection manager
(`terminai/mcp/client.py`) and the HTTP and SSE connections
(`terminai/mcp/connections/http_connection.py`, `sse_connection.py`),
together with theorems settling the spec claims about them.

Python dictionaries are embedded as insertion-ordered association lists;
`await` points where the embedded code performs I/O are replaced by
explicit outcome parameters (the value returned or exception raised by
the awaited call); a Python exception escaping a function is an
`Except.error`.
-/

namespace Terminai

/-- A JSON-like Python value, as produced by `response.json()` and passed
around as tool arguments. -/
inductive PyValue where
  | str : String → PyValue
  | int : Int → PyValue
  | bool : Bool → PyValue
  | null : PyValue
  | list : List PyValue → PyValue
  | dict : List (String × PyValue) → PyValue

/-- `d.get(k)` / `k in d` lookup on an insertion-ordered association list
standing for a Python dict. -/
def alookup {α : Type} : List (String × α) → String → Option α
  | [], _ => none
  | (k', v) :: rest, k => if k' = k then some v else alookup rest k

/-- `d[k] = v` on a Python dict: overwrite in place, else append. -/
def ainsert {α : Type} : List (String × α) → String → α → List (String × α)
  | [], k, v => [(k, v)]
  | (k', v') :: rest, k, v =>
      if k' = k then (k, v) :: rest else (k', v') :: ainsert rest k v

/-- `del d[k]` on a Python dict (all entries with key `k` are dropped;
an association list built by `ainsert` holds at most one). -/
def aerase {α : Type} (l : List (String × α)) (k : String) : List (String × α) :=
  l.filter (fun p => p.1 ≠ k)

/-- Keys of a dict, in insertion order (`list(d.keys())`). -/
def akeys {α : Type} (l : List (String × α)) : List String :=
  l.map Prod.fst

/-! ## Tool registry (`terminai/tools/manager.py`) -/

/-- The single-quote character, as it appears in error messages such as
`Tool 'x' not found`. -/
def sq : String := String.singleton (Char.ofNat 39)

/-- `ToolParameter` (manager.py, lines 11-15): pydantic model with
`required` defaulting to `True`. -/
structure ToolParameter where
  type : String
  description : String
  required : Bool
deriving Repr, DecidableEq

/-- A parameter specification dict as passed to `register_tool`
(`Dict[str, Any]` with keys `type`, `description` and optionally
`required`); `required = none` models a dict without the `required` key. -/
structure ParamSpec where
  type : String
  description : String
  required : Option Bool
deriving Repr, DecidableEq

/-- `ToolDefinition` (manager.py, lines 18-23). -/
structure ToolDefinition where
  name : String
  description : String
  parameters : List (String × ToolParameter)
  required : List String
deriving Repr, DecidableEq

/-- `ToolResult` (manager.py, lines 26-30). -/
structure ToolResult where
  success : Bool
  content : String
  error : Option String
deriving Repr, DecidableEq

/-- An executor bound at registration: an async function of the keyword
arguments that either returns a `ToolResult` or raises (message). -/
def Executor : Type := List (String × PyValue) → Except String ToolResult

/-- `ToolManager` state (manager.py, lines 36-39): the `tools` and
`executors` dicts. -/
structure ToolManager where
  tools : List (String × ToolDefinition)
  executors : List (String × Executor)

/-- The empty registry (`ToolManager.__init__`). -/
def ToolManager.empty : ToolManager := ⟨[], []⟩

/-- The `ToolDefinition` built inside `register_tool` (manager.py, lines
49-57): each parameter's `required` defaults to `True` when absent, and
the `required` list keeps the names whose spec has
`param.get("required", True)` truthy. -/
def mkToolDefinition (name description : String)
    (parameters : List (String × ParamSpec)) : ToolDefinition where
  name := name
  description := description
  parameters := parameters.map
    (fun p => (p.1, ⟨p.2.type, p.2.description, p.2.required.getD true⟩))
  required := (parameters.filter (fun p => p.2.required.getD true)).map Prod.fst

/-- `ToolManager.register_tool` (manager.py, lines 41-61): builds the
definition and overwrites both dicts at `name`. -/
def ToolManager.register_tool (tm : ToolManager) (name description : String)
    (parameters : List (String × ParamSpec)) (executor : Executor) : ToolManager where
  tools := ainsert tm.tools name (mkToolDefinition name description parameters)
  executors := ainsert tm.executors name executor

/-- `ToolManager.execute_tool` (manager.py, lines 90-131): not-found check,
executor-present check, required-parameter check, then the executor call
with any raised exception converted to a failure result. -/
def ToolManager.execute_tool (tm : ToolManager) (name : String)
    (arguments : List (String × PyValue)) : ToolResult :=
  match alookup tm.tools name with
  | none =>
      ⟨false, "", some ("Tool " ++ sq ++ name ++ sq ++ " not found")⟩
  | some tool_def =>
    match alookup tm.executors name with
    | none =>
        ⟨false, "", some ("No executor found for tool " ++ sq ++ name ++ sq)⟩
    | some executor =>
      let missing_params := tool_def.required.filter
        (fun param => (alookup arguments param).isNone)
      if missing_params.isEmpty then
        match executor arguments with
        | Except.ok result => result
        | Except.error e => ⟨false, "", some e⟩
      else
        ⟨false, "",
          some ("Missing required parameters: " ++ String.intercalate ", " missing_params)⟩

/-- `ToolManager.list_tools` (manager.py, lines 133-135). -/
def ToolManager.list_tools (tm : ToolManager) : List String :=
  akeys tm.tools

/-! ## Association-list lemmas -/

theorem alookup_ainsert {α : Type} (l : List (String × α)) (k : String) (v : α) :
    alookup (ainsert l k v) k = some v := by
  induction l with
  | nil => simp [ainsert, alookup]
  | cons hd tl ih =>
      obtain ⟨k', v'⟩ := hd
      by_cases h : k' = k
      · simp [ainsert, alookup, h]
      · simp [ainsert, alookup, h, ih]

theorem alookup_ainsert_ne {α : Type} (l : List (String × α)) (k k' : String) (v : α)
    (h : k ≠ k') : alookup (ainsert l k v) k' = alookup l k' := by
  induction l with
  | nil => simp [ainsert, alookup, h]
  | cons hd tl ih =>
      obtain ⟨k₀, v₀⟩ := hd
      by_cases h₀ : k₀ = k
      · subst h₀; simp [ainsert, alookup, h]
      · simp only [ainsert, h₀, if_false]
        by_cases h₁ : k₀ = k'
        · simp [alookup, h₁]
        · simp [alookup, h₁, ih]

theorem alookup_of_mem_nodup {α : Type} {l : List (String × α)} {k : String} {v : α}
    (hmem : (k, v) ∈ l) (hnd : (l.map Prod.fst).Nodup) : alookup l k = some v := by
  induction l with
  | nil => cases hmem
  | cons hd tl ih =>
      obtain ⟨k₀, v₀⟩ := hd
      simp only [List.map_cons, List.nodup_cons] at hnd
      rcases List.mem_cons.mp hmem with heq | htl
      · injection heq with hk hv
        subst hk; subst hv
        simp [alookup]
      · have hne : k₀ ≠ k := by
          intro hcontra
          subst hcontra
          exact hnd.1 (List.mem_map.mpr ⟨(k₀, v), htl, rfl⟩)
        simp [alookup, hne, ih htl hnd.2]

theorem alookup_eq_none {α : Type} {l : List (String × α)} {k : String} :
    alookup l k = none ↔ ∀ p ∈ l, p.1 ≠ k := by
  induction l with
  | nil => simp [alookup]
  | cons hd tl ih =>
      obtain ⟨k₀, v₀⟩ := hd
      by_cases h : k₀ = k
      · subst h; simp [alookup]
      · simp [alookup, h, ih]

/-! ## Demonstration values used by witnesses -/

/-- A concrete executor that always succeeds. -/
def demoOkExecutor : Executor := fun _ => Except.ok ⟨true, "ran", none⟩

/-- A concrete executor that always raises. -/
def demoRaisingExecutor : Executor := fun _ => Except.error "boom"

/-- A registry holding one tool `echo` with one required parameter
`query`, bound to the succeeding executor. -/
def demoManager : ToolManager :=
  ToolManager.empty.register_tool "echo" "demo tool"
    [("query", ⟨"string", "the query", none⟩)] demoOkExecutor

/-- The same registry with the raising executor instead. -/
def demoRaisingManager : ToolManager :=
  ToolManager.empty.register_tool "echo" "demo tool"
    [("query", ⟨"string", "the query", none⟩)] demoRaisingExecutor

/-! ## Discovery bridge (`terminai/tools/mcp_tools.py`)

The bridge's response normalization probes attributes at runtime
(`hasattr`); the embedding turns each runtime shape that
`_serialize_mcp_response` distinguishes into one constructor, listed in
the order the source tests them, so that each constructor takes exactly
the branch its shape would take first. String quoting/escaping and
`json.dumps` pretty-printing (`indent=2`) are abstracted: `jsonDumps`
serializes the same structure without whitespace or escape handling.
`text` fields of content blocks are modelled as strings, as the MCP SDK
content types guarantee. -/

/-- A quote character for the JSON encoder. -/
def dq : String := String.singleton (Char.ofNat 34)

/-- A content block, as probed inside `_serialize_mcp_response`
(mcp_tools.py lines 127-139) and in its list branch (lines 157-163):
either a pydantic model (`model_dump` present), an object with a bare
`text` attribute, or anything else (kept as its `str()` form). -/
inductive ContentBlock where
  | pydantic (fields : List (String × PyValue))
  | textAttr (text : String)
  | other (repr : String)

/-- The runtime shapes `_serialize_mcp_response` (mcp_tools.py lines
111-171) distinguishes, one constructor per branch in source order:
pydantic model (`model_dump`), `CallToolResult`-like (`content` +
`isError` attributes, with list or non-list content), typed text
(`type` + `text` attributes), plain dict, plain list, anything else. -/
inductive MCPResponse where
  | pydanticModel (fields : List (String × PyValue))
  | callToolLike (content : List ContentBlock) (isError : Bool)
  | callToolSingle (content : String) (isError : Bool)
  | typedText (text : String)
  | dict (d : List (String × PyValue))
  | list (items : List ContentBlock)
  | other (repr : String)

mutual

/-- `json.dumps` over the embedded values (structure-faithful; formatting
and escaping abstracted). -/
def jsonDumps : PyValue → String
  | PyValue.str s => dq ++ s ++ dq
  | PyValue.int n => toString n
  | PyValue.bool b => cond b "true" "false"
  | PyValue.null => "null"
  | PyValue.list xs => "[" ++ jsonDumpsList xs ++ "]"
  | PyValue.dict xs => "\x7b" ++ jsonDumpsFields xs ++ "\x7d"

/-- Comma-joined serialization of a JSON array's elements. -/
def jsonDumpsList : List PyValue → String
  | [] => ""
  | [x] => jsonDumps x
  | x :: xs => jsonDumps x ++ ", " ++ jsonDumpsList xs

/-- Comma-joined serialization of a JSON object's fields. -/
def jsonDumpsFields : List (String × PyValue) → String
  | [] => ""
  | [(k, v)] => dq ++ k ++ dq ++ ": " ++ jsonDumps v
  | (k, v) :: xs => dq ++ k ++ dq ++ ": " ++ jsonDumps v ++ ", " ++ jsonDumpsFields xs

end

/-- One content block of a `CallToolResult`-like response, serialized as
in mcp_tools.py lines 127-139: a pydantic block whose dump has
`type == "text"` and a `text` key contributes its text, any other
pydantic block is dumped as JSON, a bare `text` attribute contributes
its text, anything else its `str()` form. -/
def serializeContentBlock : ContentBlock → String
  | ContentBlock.pydantic fields =>
      match alookup fields "type", alookup fields "text" with
      | some (PyValue.str "text"), some (PyValue.str s) => s
      | _, _ => jsonDumps (PyValue.dict fields)
  | ContentBlock.textAttr t => t
  | ContentBlock.other s => s

/-- An item of the list branch of `_serialize_mcp_response` (mcp_tools.py
lines 155-164): `model_dump()` dict, `{text: ...}` dict, or `str()`. -/
def listItemToValue : ContentBlock → PyValue
  | ContentBlock.pydantic fields => PyValue.dict fields
  | ContentBlock.textAttr t => PyValue.dict [("text", PyValue.str t)]
  | ContentBlock.other s => PyValue.str s

/-- `_serialize_mcp_response` (mcp_tools.py lines 111-171). -/
def serialize_mcp_response : MCPResponse → String
  | MCPResponse.pydanticModel fields => jsonDumps (PyValue.dict fields)
  | MCPResponse.callToolLike blocks _ =>
      String.intercalate "\n" (blocks.map serializeContentBlock)
  | MCPResponse.callToolSingle content _ => content
  | MCPResponse.typedText t => t
  | MCPResponse.dict d => jsonDumps (PyValue.dict d)
  | MCPResponse.list items => jsonDumps (PyValue.list (items.map listItemToValue))
  | MCPResponse.other s => s

/-- The executor built by `_create_mcp_tool_executor` (mcp_tools.py lines
81-109). `call` stands for the awaited
`self.mcp_client.call_tool(server, original_name, kwargs)` chain
together with the `self.mcp_tools[...]` lookup preceding it; any
exception it raises is converted into a failure result, a normal return
is serialized into `content` with `success = true` and `error = None`.
The executor itself never raises, hence always `Except.ok`. -/
def mcpToolExecutor (call : List (String × PyValue) → Except String MCPResponse) :
    Executor := fun kwargs =>
  Except.ok (match call kwargs with
    | Except.ok result => ⟨true, serialize_mcp_response result, none⟩
    | Except.error e => ⟨false, "", some e⟩)

/-- A resource dict as reported by discovery (`resource.get(...)` keys). -/
structure ResourceDescriptor where
  uri : Option String
  name : Option String
  description : Option String
  mimeType : Option String
deriving Repr, DecidableEq

/-- The executor built by `_create_resource_executor` (mcp_tools.py lines
210-228): reads the resource and wraps the outcome; a call whose keyword
arguments do not match the single `uri: str` parameter raises TypeError
at the call site (string-valued `uri` is assumed, as the registered
schema declares). -/
def resourceReadExecutor (read : String → Except String String) : Executor := fun kwargs =>
  match kwargs with
  | [("uri", PyValue.str uri)] =>
      Except.ok (match read uri with
        | Except.ok content => ⟨true, content, none⟩
        | Except.error e => ⟨false, "", some e⟩)
  | _ => Except.error "TypeError: executor() got unexpected arguments"

/-- One line of the resource listing (mcp_tools.py lines 244-248). -/
def resourceLine (resource : ResourceDescriptor) : String :=
  let uri := resource.uri.getD "unknown"
  let name := resource.name.getD uri
  let description := resource.description.getD "No description"
  "- " ++ name ++ " (" ++ uri ++ "): " ++ description

/-- The executor built by `_create_resource_list_executor` (mcp_tools.py
lines 230-265); `resources` stands for the wrapper's
`self.mcp_resources.get(server_name, [])` at call time. -/
def resourceListExecutor (resources : List ResourceDescriptor) (server : String) :
    Executor := fun kwargs =>
  match kwargs with
  | [] =>
      Except.ok (if resources.isEmpty then
        ⟨true, "No resources available from " ++ server, none⟩
      else
        ⟨true, "Available resources from " ++ server ++ ":\n" ++
          String.intercalate "\n" (resources.map resourceLine), none⟩)
  | _ => Except.error "TypeError: executor() got unexpected arguments"

/-- A property of an MCP tool's `inputSchema.properties` dict. -/
structure PropSpec where
  type : Option String
  description : Option String
deriving Repr, DecidableEq

/-- The `inputSchema` dict of an MCP tool. -/
structure InputSchema where
  properties : List (String × PropSpec)
  required : List String
deriving Repr, DecidableEq

/-- The tool dict returned by a server's tool listing (`tool_def.get`
keys used by `_register_mcp_tool`); `name = some ""` models a falsy
empty name. -/
structure MCPToolDef where
  name : Option String
  description : Option String
  inputSchema : Option InputSchema
deriving Repr, DecidableEq

/-- The value stored in `self.mcp_tools` (mcp_tools.py lines 67-71). -/
structure MCPToolInfo where
  server : String
  original_name : String
  definition : MCPToolDef
deriving Repr, DecidableEq

/-- `MCPToolWrapper` state (mcp_tools.py lines 16-20). -/
structure MCPToolWrapper where
  mcp_tools : List (String × MCPToolInfo)
  mcp_resources : List (String × List ResourceDescriptor)
deriving Repr

/-- The remote behavior the bridge's executors close over: the awaited
tool call (by unique tool name) and resource read (by server). -/
structure BridgeEnv where
  callTool : String → List (String × PyValue) → Except String MCPResponse
  readResource : String → String → Except String String

/-- `_register_mcp_tool` (mcp_tools.py lines 39-79): skip on falsy name,
otherwise namespace the tool, convert the schema, record the attribution
in `mcp_tools` and register the proxy executor. -/
def registerMCPTool (env : BridgeEnv) (w : MCPToolWrapper) (tm : ToolManager)
    (server : String) (tool_def : MCPToolDef) : MCPToolWrapper × ToolManager :=
  match tool_def.name with
  | none => (w, tm)
  | some tool_name =>
    if tool_name = "" then (w, tm)
    else
      let unique := "mcp_" ++ server ++ "_" ++ tool_name
      let description := tool_def.description.getD
        ("MCP tool " ++ tool_name ++ " from " ++ server)
      let schema := tool_def.inputSchema.getD ⟨[], []⟩
      let parameters : List (String × ParamSpec) := schema.properties.map (fun p =>
        (p.1, ⟨p.2.type.getD "string",
               p.2.description.getD ("Parameter " ++ p.1),
               some (schema.required.contains p.1)⟩))
      let w' := { w with mcp_tools := ainsert w.mcp_tools unique ⟨server, tool_name, tool_def⟩ }
      let tm' := tm.register_tool unique ("[MCP:" ++ server ++ "] " ++ description)
        parameters (mcpToolExecutor (env.callTool unique))
      (w', tm')

/-- `_discover_and_register_resources` (mcp_tools.py lines 173-208):
record the server's resource list, and iff it is non-empty register the
read-by-uri tool and the list-all tool. `resources` stands for the
awaited `self.mcp_client.list_resources(server_name)`. -/
def discoverAndRegisterResources (env : BridgeEnv) (w : MCPToolWrapper)
    (tm : ToolManager) (server : String) (resources : List ResourceDescriptor) :
    MCPToolWrapper × ToolManager :=
  let w' := { w with mcp_resources := ainsert w.mcp_resources server resources }
  if resources.isEmpty then (w', tm)
  else
    let tm1 := tm.register_tool ("mcp_" ++ server ++ "_read_resource")
      ("[MCP:" ++ server ++ "] Read a resource from " ++ server ++ " MCP server")
      [("uri", ⟨"string", "Resource URI to read from " ++ server, some true⟩)]
      (resourceReadExecutor (env.readResource server))
    let tm2 := tm1.register_tool ("mcp_" ++ server ++ "_list_resources")
      ("[MCP:" ++ server ++ "] List available resources from " ++ server ++ " MCP server")
      []
      (resourceListExecutor resources server)
    (w', tm2)

/-- `discover_and_register_tools` (mcp_tools.py lines 22-37). `tools` and
`resources` stand for the awaited discovery results. -/
def discoverAndRegisterTools (env : BridgeEnv) (w : MCPToolWrapper)
    (tm : ToolManager) (server : String) (tools : List MCPToolDef)
    (resources : List ResourceDescriptor) : MCPToolWrapper × ToolManager :=
  let step := tools.foldl (fun acc td => registerMCPTool env acc.1 acc.2 server td) (w, tm)
  discoverAndRegisterResources env step.1 step.2 server resources

/-- `refresh_server_tools` (mcp_tools.py lines 275-292). Its removal loop
calls `tool_manager.unregister_tool(tool_name)`, but `ToolManager`
(manager.py) defines no method of that name, so the first iteration
raises `AttributeError`, which propagates (there is no try/except in
`refresh_server_tools`); only when no tool is attributed to the server
does the loop body never run, and the flow continues with resource
removal and rediscovery. -/
def refreshServerTools (env : BridgeEnv) (w : MCPToolWrapper) (tm : ToolManager)
    (server : String) (tools : List MCPToolDef)
    (resources : List ResourceDescriptor) :
    Except String (MCPToolWrapper × ToolManager) :=
  let tools_to_remove := (w.mcp_tools.filter (fun p => p.2.server == server)).map Prod.fst
  match tools_to_remove with
  | [] =>
      let w1 := { w with mcp_resources := aerase w.mcp_resources server }
      Except.ok (discoverAndRegisterTools env w1 tm server tools resources)
  | _ :: _ =>
      Except.error "AttributeError: ToolManager object has no attribute unregister_tool"

/-! ## Connection manager (`terminai/mcp/client.py`) and typed errors
(`terminai/mcp/exceptions.py`) -/

/-- The exception classes of `terminai/mcp/exceptions.py`, plus the
built-in `ValueError` the client raises for an unknown server. -/
inductive MCPError where
  | connection (msg : String)
  | authentication (msg : String)
  | timeout (msg : String)
  | configuration (msg : String)
  | notFound (msg : String)
  | value (msg : String)
deriving Repr, DecidableEq

/-- Whether a fallible result raised `MCPNotFoundError`. -/
def isNotFoundResult {α : Type} : Except MCPError α → Bool
  | Except.error (MCPError.notFound _) => true
  | _ => false

/-- Whether a fallible result raised `MCPAuthenticationError`. -/
def isAuthenticationResult {α : Type} : Except MCPError α → Bool
  | Except.error (MCPError.authentication _) => true
  | _ => false

/-- Whether a fallible result raised `MCPTimeoutError`. -/
def isTimeoutResult {α : Type} : Except MCPError α → Bool
  | Except.error (MCPError.timeout _) => true
  | _ => false

/-- The three connection classes the factory can instantiate. -/
inductive ConnectionVariant where
  | stdio
  | http
  | sse
deriving Repr, DecidableEq

/-- A server configuration as consumed by `MCPClient._create_connection`;
only the `type` key drives the factory, `connType = none` models a
configuration without a `type` key (`config.get("type", "stdio")`). -/
structure ServerConfig where
  connType : Option String
deriving Repr, DecidableEq

/-- `MCPClient._create_connection` (client.py lines 22-33): select the
variant by the `type` key, defaulting to stdio; raise
`MCPConfigurationError` on anything else. -/
def MCPClient.create_connection (config : ServerConfig) :
    Except MCPError ConnectionVariant :=
  let connection_type := config.connType.getD "stdio"
  if connection_type = "stdio" then Except.ok ConnectionVariant.stdio
  else if connection_type = "http" then Except.ok ConnectionVariant.http
  else if connection_type = "sse" then Except.ok ConnectionVariant.sse
  else Except.error (MCPError.configuration
    ("Unknown connection type: " ++ connection_type))

/-- `MCPClient.connect_server` (client.py lines 35-47): create the
connection, await its `connect()` (outcome abstracted by
`connectOutcome`), store it under `name` only on a `True` return; any
exception is logged and re-raised, leaving the map untouched. Returns
the resulting `connections` map alongside the call's outcome. -/
def MCPClient.connect_server (connections : List (String × ConnectionVariant))
    (name : String) (config : ServerConfig)
    (connectOutcome : ConnectionVariant → Except MCPError Bool) :
    List (String × ConnectionVariant) × Except MCPError Bool :=
  match MCPClient.create_connection config with
  | Except.error e => (connections, Except.error e)
  | Except.ok conn =>
    match connectOutcome conn with
    | Except.ok true => (ainsert connections name conn, Except.ok true)
    | Except.ok false => (connections, Except.ok false)
    | Except.error e => (connections, Except.error e)

/-- `MCPClient.disconnect_server` (client.py lines 85-98): no-op on an
absent name; on a present name, `del self.connections[name]` runs only
after the awaited `disconnect()` returns — when `disconnect()` raises,
the `except` clause logs and the entry stays in the map. -/
def MCPClient.disconnect_server (connections : List (String × ConnectionVariant))
    (name : String) (disconnectOutcome : Except String Unit) :
    List (String × ConnectionVariant) :=
  match alookup connections name with
  | none => connections
  | some _ =>
    match disconnectOutcome with
    | Except.ok _ => aerase connections name
    | Except.error _ => connections

/-- `MCPClient.disconnect_all` (client.py lines 95-98): iterate
`disconnect_server` over a snapshot of the keys;
`disconnectOutcome n` is what server `n`'s `disconnect()` does. -/
def MCPClient.disconnect_all (connections : List (String × ConnectionVariant))
    (disconnectOutcome : String → Except String Unit) :
    List (String × ConnectionVariant) :=
  (akeys connections).foldl
    (fun acc n => MCPClient.disconnect_server acc n (disconnectOutcome n)) connections

/-- Whether an `Except` is a normal return. -/
def exceptOk {ε α : Type} : Except ε α → Bool
  | Except.ok _ => true
  | Except.error _ => false

/-! ## HTTP connection (`terminai/mcp/connections/http_connection.py`) -/

/-- The outcome of one awaited httpx request: a parsed successful JSON
body, an `httpx.HTTPStatusError` from `raise_for_status()` (carrying the
status code and response text), or an `httpx.RequestError`/other failure
(carrying its message). -/
inductive HttpOutcome where
  | success (body : PyValue)
  | statusError (code : Nat) (text : String)
  | requestError (msg : String)

/-- `HttpConnection.call_tool` (http_connection.py lines 76-94). `client`
is whether `self.client` is set; `outcome` stands for the awaited POST
to `/tools/call`. Every failure raises `MCPConnectionError`: a 404
status gets a not-found message, other statuses the response text, and
request-level failures the exception message. -/
def HttpConnection.call_tool (client : Bool) (name tool_name : String)
    (outcome : HttpOutcome) : Except MCPError PyValue :=
  if !client then
    Except.error (MCPError.connection ("Server " ++ name ++ " not connected"))
  else match outcome with
  | HttpOutcome.success body => Except.ok body
  | HttpOutcome.statusError code text =>
      if code = 404 then
        Except.error (MCPError.connection ("Tool " ++ tool_name ++ " not found"))
      else
        Except.error (MCPError.connection ("Tool call failed: " ++ text))
  | HttpOutcome.requestError msg =>
      Except.error (MCPError.connection
        ("Failed to call tool " ++ tool_name ++ ": " ++ msg))

/-- `HttpConnection.read_resource` (http_connection.py lines 109-127).
On success returns `response.json().get("content", "")`; a non-dict
body makes `.get` raise `AttributeError`, caught by the generic clause
(its message abstracted). Every failure raises `MCPConnectionError`. -/
def HttpConnection.read_resource (client : Bool) (name uri : String)
    (outcome : HttpOutcome) : Except MCPError PyValue :=
  if !client then
    Except.error (MCPError.connection ("Server " ++ name ++ " not connected"))
  else match outcome with
  | HttpOutcome.success body =>
      match body with
      | PyValue.dict d => Except.ok ((alookup d "content").getD (PyValue.str ""))
      | _ => Except.error (MCPError.connection
          ("Failed to read resource " ++ uri ++ ": AttributeError"))
  | HttpOutcome.statusError code text =>
      if code = 404 then
        Except.error (MCPError.connection ("Resource " ++ uri ++ " not found"))
      else
        Except.error (MCPError.connection ("Resource read failed: " ++ text))
  | HttpOutcome.requestError msg =>
      Except.error (MCPError.connection
        ("Failed to read resource " ++ uri ++ ": " ++ msg))

/-! ## SSE connection (`terminai/mcp/connections/sse_connection.py`) -/

/-- The fixed wait `connect()` performs before checking the connected
flag: `await asyncio.sleep(2)` (sse_connection.py line 39) — a constant,
not the configured `timeout`. -/
def SSEConnection.connectWaitSeconds : Nat := 2

/-- `SSEConnection.connect` (sse_connection.py lines 29-52): spawn the
background session task, sleep the fixed 2 seconds, then test
`self.connected`; `connectedAfterWait` is that flag's value after the
sleep. On the failure path the raised
`MCPConnectionError("Connection failed to establish")` is caught by the
`except` clause; its message contains neither `401` nor `Unauthorized`,
so it is re-raised as `MCPConnectionError("Connection failed for
<name>: ...")` — never `MCPTimeoutError`. -/
def SSEConnection.connect (name : String) (connectedAfterWait : Bool) :
    Except MCPError Bool :=
  if connectedAfterWait then Except.ok true
  else Except.error (MCPError.connection
    ("Connection failed for " ++ name ++ ": Connection failed to establish"))

/-! ## Claim theorems: tool registry -/

/-- C1: `execute_tool` on an unregistered name returns the not-found
failure result, and on a registered name whose required parameters are
not all present returns the missing-parameters failure result whose
error lists exactly the missing names. In both cases the fixed result
holds for every registry and hence for every bound executor, so no
executor can influence (and none is invoked in) these paths. -/
theorem execute_tool_fails_fast (tm : ToolManager) (name : String)
    (args : List (String × PyValue)) :
    (alookup tm.tools name = none →
      tm.execute_tool name args =
        ⟨false, "", some ("Tool " ++ sq ++ name ++ sq ++ " not found")⟩)
    ∧
    (∀ td ex,
      alookup tm.tools name = some td →
      alookup tm.executors name = some ex →
      td.required.filter (fun p => (alookup args p).isNone) ≠ [] →
      tm.execute_tool name args =
        ⟨false, "",
          some ("Missing required parameters: " ++
            String.intercalate ", "
              (td.required.filter (fun p => (alookup args p).isNone)))⟩) := by
  constructor
  · intro h
    simp [ToolManager.execute_tool, h]
  · intro td ex htd hex hmiss
    have hne : (td.required.filter (fun p => (alookup args p).isNone)).isEmpty = false := by
      simpa [List.isEmpty_iff] using hmiss
    simp [ToolManager.execute_tool, htd, hex, hne]

/-- Witness for C1 at concrete inputs: an unregistered name, and a
registered tool called without its required `query` parameter. -/
theorem execute_tool_fails_fast_witness :
    ToolManager.empty.execute_tool "nope" [] =
      ⟨false, "", some ("Tool " ++ sq ++ "nope" ++ sq ++ " not found")⟩
    ∧ demoManager.execute_tool "echo" [] =
      ⟨false, "", some "Missing required parameters: query"⟩ := by
  refine ⟨(execute_tool_fails_fast ToolManager.empty "nope" []).1 rfl, ?_⟩
  have h := (execute_tool_fails_fast demoManager "echo" []).2
    (mkToolDefinition "echo" "demo tool" [("query", ⟨"string", "the query", none⟩)])
    demoOkExecutor rfl rfl (by decide)
  simpa using h

/-- C2: when a tool and its executor are both registered and no required
parameter is missing, `execute_tool` never raises: a raising executor
yields `success = false`, `content = ""`, `error` the raised message,
and a normally returning executor has its result returned unchanged. -/
theorem execute_tool_never_raises (tm : ToolManager) (name : String)
    (args : List (String × PyValue)) (td : ToolDefinition) (ex : Executor)
    (htd : alookup tm.tools name = some td)
    (hex : alookup tm.executors name = some ex)
    (hmiss : td.required.filter (fun p => (alookup args p).isNone) = []) :
    (∀ e, ex args = Except.error e →
      tm.execute_tool name args = ⟨false, "", some e⟩)
    ∧ (∀ r, ex args = Except.ok r → tm.execute_tool name args = r) := by
  constructor
  · intro e he
    simp [ToolManager.execute_tool, htd, hex, hmiss, he]
  · intro r hr
    simp [ToolManager.execute_tool, htd, hex, hmiss, hr]

/-- Witness for C2 at concrete inputs: a raising executor is converted
into a failure result, a succeeding executor's result passes through. -/
theorem execute_tool_never_raises_witness :
    demoRaisingManager.execute_tool "echo" [("query", PyValue.str "x")] =
      ⟨false, "", some "boom"⟩
    ∧ demoManager.execute_tool "echo" [("query", PyValue.str "x")] =
      ⟨true, "ran", none⟩ := by
  constructor
  · exact (execute_tool_never_raises demoRaisingManager "echo"
      [("query", PyValue.str "x")]
      (mkToolDefinition "echo" "demo tool" [("query", ⟨"string", "the query", none⟩)])
      demoRaisingExecutor rfl rfl (by decide)).1 "boom" rfl
  · exact (execute_tool_never_raises demoManager "echo"
      [("query", PyValue.str "x")]
      (mkToolDefinition "echo" "demo tool" [("query", ⟨"string", "the query", none⟩)])
      demoOkExecutor rfl rfl (by decide)).2 ⟨true, "ran", none⟩ rfl

/-- C9: a parameter spec that omits the `required` key is treated as
required: the parameter lands in the descriptor's `required` list and a
call lacking it fails; only an explicit `required = false` keeps it out
of the `required` list. -/
theorem register_tool_omitted_required_defaults (tm : ToolManager)
    (name desc : String) (params : List (String × ParamSpec)) (ex : Executor)
    (p : String) (spec : ParamSpec) (hmem : (p, spec) ∈ params) :
    (spec.required = none →
      p ∈ (mkToolDefinition name desc params).required
      ∧ ∀ args, alookup args p = none →
          ((tm.register_tool name desc params ex).execute_tool name args).success = false)
    ∧ (spec.required = some false → (params.map Prod.fst).Nodup →
        p ∉ (mkToolDefinition name desc params).required) := by
  constructor
  · intro hnone
    have hpmem : p ∈ (mkToolDefinition name desc params).required := by
      simp only [mkToolDefinition]
      exact List.mem_map.mpr
        ⟨(p, spec), List.mem_filter.mpr ⟨hmem, by simp [hnone]⟩, rfl⟩
    refine ⟨hpmem, ?_⟩
    intro args hargs
    have htools : alookup (tm.register_tool name desc params ex).tools name =
        some (mkToolDefinition name desc params) := alookup_ainsert ..
    have hexec : alookup (tm.register_tool name desc params ex).executors name =
        some ex := alookup_ainsert ..
    have hmiss : p ∈ (mkToolDefinition name desc params).required.filter
        (fun q => (alookup args q).isNone) :=
      List.mem_filter.mpr ⟨hpmem, by simp [hargs]⟩
    have hne : ((mkToolDefinition name desc params).required.filter
        (fun q => (alookup args q).isNone)).isEmpty = false := by
      simpa [List.isEmpty_iff] using List.ne_nil_of_mem hmiss
    simp [ToolManager.execute_tool, htools, hexec, hne]
  · intro hfalse hnd hcontra
    simp only [mkToolDefinition] at hcontra
    obtain ⟨⟨p', spec'⟩, hfilt, hfst⟩ := List.mem_map.mp hcontra
    simp only at hfst
    subst hfst
    have hmem' := (List.mem_filter.mp hfilt).1
    have hpred := (List.mem_filter.mp hfilt).2
    have : spec' = spec := by
      have h1 := alookup_of_mem_nodup hmem' hnd
      have h2 := alookup_of_mem_nodup hmem hnd
      rw [h1] at h2
      injection h2
    subst this
    simp [hfalse] at hpred

/-- Witness for C9: in `demoManager`, `query` (whose spec has no
`required` key) is required and a call without it fails; a variant with
an explicit `required = false` is not in the required list. -/
theorem register_tool_omitted_required_defaults_witness :
    ("query" ∈ (mkToolDefinition "echo" "demo tool"
        [("query", ⟨"string", "the query", none⟩)]).required
      ∧ (demoManager.execute_tool "echo" []).success = false)
    ∧ "query" ∉ (mkToolDefinition "echo" "demo tool"
        [("query", ⟨"string", "the query", some false⟩)]).required := by
  constructor
  · have h := (register_tool_omitted_required_defaults ToolManager.empty "echo"
      "demo tool" [("query", ⟨"string", "the query", none⟩)] demoOkExecutor
      "query" ⟨"string", "the query", none⟩ (by simp)).1 rfl
    exact ⟨h.1, h.2 [] rfl⟩
  · exact (register_tool_omitted_required_defaults ToolManager.empty "echo"
      "demo tool" [("query", ⟨"string", "the query", some false⟩)] demoOkExecutor
      "query" ⟨"string", "the query", some false⟩ (by simp)).2 rfl (by decide)

/-! ## Claim theorems: discovery bridge -/

/-- A bridge environment whose remote calls all fail (sufficient for the
registration-shape claims, which never run the executors). -/
def demoEnv : BridgeEnv where
  callTool := fun _ _ => Except.error "not connected"
  readResource := fun _ _ => Except.error "not connected"

/-- A concrete discovered resource. -/
def demoResource : ResourceDescriptor :=
  ⟨some "file:///a.txt", some "a", some "text file", some "text/plain"⟩

/-- A concrete discovered tool `search` with one required parameter. -/
def demoToolDef : MCPToolDef where
  name := some "search"
  description := some "Search things"
  inputSchema := some ⟨[("query", ⟨some "string", some "the query"⟩)], ["query"]⟩

/-- The bridge and registry state after one discovery epoch of server
`alpha` exposing the `search` tool and no resources. -/
def demoBridgeState : MCPToolWrapper × ToolManager :=
  discoverAndRegisterTools demoEnv ⟨[], []⟩ ToolManager.empty "alpha" [demoToolDef] []

/-- C10: the bridge tool executor reports `success = true` with
`error = none` whenever the underlying `call_tool` returns without
raising, for every returned payload — including one whose `isError`
field marks an error — and the payload is only serialized into
`content`. -/
theorem mcp_executor_success_ignores_payload_errors
    (call : List (String × PyValue) → Except String MCPResponse)
    (kwargs : List (String × PyValue)) (r : MCPResponse)
    (h : call kwargs = Except.ok r) :
    mcpToolExecutor call kwargs =
      Except.ok ⟨true, serialize_mcp_response r, none⟩ := by
  simp [mcpToolExecutor, h]

/-- A payload in the shape the SSE connection's `call_tool` returns,
with `isError` set. -/
def demoErrorPayload : MCPResponse :=
  MCPResponse.dict
    [("content", PyValue.list [PyValue.str "failure detail"]),
     ("isError", PyValue.bool true)]

/-- Witness for C10 at a concrete `isError = true` payload. -/
theorem mcp_executor_success_ignores_payload_errors_witness :
    mcpToolExecutor (fun _ => Except.ok demoErrorPayload) [] =
      Except.ok ⟨true, serialize_mcp_response demoErrorPayload, none⟩ :=
  mcp_executor_success_ignores_payload_errors _ [] demoErrorPayload rfl

/-- C7: a server reporting zero resources gets no resource-access tools;
a server reporting any non-empty resource list gets exactly the
read-by-uri tool and the list-all tool added to the registry, with
definitions independent of the resources reported. -/
theorem discover_resources_registers_two_or_none (env : BridgeEnv)
    (w : MCPToolWrapper) (tm : ToolManager) (server : String)
    (resources : List ResourceDescriptor) :
    (resources = [] →
      ((discoverAndRegisterResources env w tm server resources).2).tools = tm.tools)
    ∧ (resources ≠ [] →
      ((discoverAndRegisterResources env w tm server resources).2).tools =
        ainsert
          (ainsert tm.tools ("mcp_" ++ server ++ "_read_resource")
            (mkToolDefinition ("mcp_" ++ server ++ "_read_resource")
              ("[MCP:" ++ server ++ "] Read a resource from " ++ server ++ " MCP server")
              [("uri", ⟨"string", "Resource URI to read from " ++ server, some true⟩)]))
          ("mcp_" ++ server ++ "_list_resources")
          (mkToolDefinition ("mcp_" ++ server ++ "_list_resources")
            ("[MCP:" ++ server ++ "] List available resources from " ++ server ++ " MCP server")
            [])) := by
  constructor
  · intro h
    subst h
    simp [discoverAndRegisterResources]
  · intro h
    have hne : resources.isEmpty = false := by
      simpa [List.isEmpty_iff] using h
    simp [discoverAndRegisterResources, hne, ToolManager.register_tool]

/-- Witness for C7: zero resources add nothing; one resource adds
exactly the two access tools. -/
theorem discover_resources_registers_two_or_none_witness :
    ((discoverAndRegisterResources demoEnv ⟨[], []⟩ ToolManager.empty "alpha" []).2).tools = []
    ∧ ((discoverAndRegisterResources demoEnv ⟨[], []⟩ ToolManager.empty "alpha"
          [demoResource]).2).tools =
        ainsert
          (ainsert ToolManager.empty.tools "mcp_alpha_read_resource"
            (mkToolDefinition "mcp_alpha_read_resource"
              "[MCP:alpha] Read a resource from alpha MCP server"
              [("uri", ⟨"string", "Resource URI to read from alpha", some true⟩)]))
          "mcp_alpha_list_resources"
          (mkToolDefinition "mcp_alpha_list_resources"
            "[MCP:alpha] List available resources from alpha MCP server"
            []) := by
  constructor
  · exact (discover_resources_registers_two_or_none demoEnv ⟨[], []⟩
      ToolManager.empty "alpha" []).1 rfl
  · have h := (discover_resources_registers_two_or_none demoEnv ⟨[], []⟩
      ToolManager.empty "alpha" [demoResource]).2 (by simp)
    simpa using h

/-- C3 (code bug): after one discovery epoch registered
`mcp_alpha_search` for server `alpha`, refreshing `alpha` removes
nothing: the removal loop's call to `tool_manager.unregister_tool`
raises `AttributeError` (`ToolManager` defines no such method), the
exception propagates out of `refresh_server_tools`, and the previous
epoch's attribution survives in both the bridge map and the registry. -/
theorem refresh_server_tools_attribute_error :
    refreshServerTools demoEnv demoBridgeState.1 demoBridgeState.2 "alpha"
        [demoToolDef] [] =
      Except.error "AttributeError: ToolManager object has no attribute unregister_tool"
    ∧ alookup demoBridgeState.1.mcp_tools "mcp_alpha_search" =
        some ⟨"alpha", "search", demoToolDef⟩
    ∧ alookup demoBridgeState.2.tools "mcp_alpha_search" =
        some (mkToolDefinition "mcp_alpha_search" "[MCP:alpha] Search things"
          [("query", ⟨"string", "the query", some true⟩)]) :=
  ⟨rfl, rfl, rfl⟩

/-! ## Claim theorems: connection manager -/

/-- Folding `disconnect_server` over a list of names keeps exactly the
entries whose key is not listed or whose teardown raised. -/
theorem foldl_disconnect_eq_filter (f : String → Except String Unit)
    (ks : List String) (acc : List (String × ConnectionVariant)) :
    ks.foldl (fun a n => MCPClient.disconnect_server a n (f n)) acc =
      acc.filter (fun p => !(decide (p.1 ∈ ks)) || !(exceptOk (f p.1))) := by
  induction ks generalizing acc with
  | nil => simp
  | cons n ks ih =>
      rw [List.foldl_cons, ih]
      unfold MCPClient.disconnect_server
      cases hly : alookup acc n with
      | none =>
          apply List.filter_congr
          intro p hp
          have hne : p.1 ≠ n := (alookup_eq_none.mp hly) p hp
          simp [hne]
      | some c =>
          cases hfn : f n with
          | ok u =>
              rw [aerase, List.filter_filter]
              apply List.filter_congr
              intro p hp
              by_cases hpn : p.1 = n
              · simp [hpn, hfn, exceptOk]
              · simp [hpn]
          | error e =>
              apply List.filter_congr
              intro p hp
              by_cases hpn : p.1 = n
              · simp [hpn, hfn, exceptOk]
              · simp [hpn]

/-- C8 counterexample: on a present name whose teardown raises,
`disconnect_server` does not remove the entry — `del` sits after the
awaited `disconnect()` inside the `try`, so the exception skips it. -/
theorem disconnect_server_failure_keeps_entry :
    MCPClient.disconnect_server [("alpha", ConnectionVariant.http)] "alpha"
      (Except.error "close failed") = [("alpha", ConnectionVariant.http)] := rfl

/-- C8 as amended: `disconnect_server` on an absent name is a no-op; on a
present name it removes the entry when teardown succeeds but keeps it
(logging, not raising) when teardown raises; `disconnect_all` applies
this to every entry, continuing past per-connection failures: the final
map keeps exactly the entries whose teardown raised. -/
theorem disconnect_tolerates_failures (connections : List (String × ConnectionVariant))
    (name : String) (o : Except String Unit) (f : String → Except String Unit) :
    (alookup connections name = none →
      MCPClient.disconnect_server connections name o = connections)
    ∧ (∀ c, alookup connections name = some c → exceptOk o = true →
        MCPClient.disconnect_server connections name o = aerase connections name)
    ∧ (∀ c, alookup connections name = some c → exceptOk o = false →
        MCPClient.disconnect_server connections name o = connections)
    ∧ MCPClient.disconnect_all connections f =
        connections.filter (fun p => !(exceptOk (f p.1))) := by
  refine ⟨?_, ?_, ?_, ?_⟩
  · intro h
    simp [MCPClient.disconnect_server, h]
  · intro c hc ho
    cases o with
    | ok u => simp [MCPClient.disconnect_server, hc]
    | error e => simp [exceptOk] at ho
  · intro c hc ho
    cases o with
    | ok u => simp [exceptOk] at ho
    | error e => simp [MCPClient.disconnect_server, hc]
  · rw [MCPClient.disconnect_all, foldl_disconnect_eq_filter]
    apply List.filter_congr
    intro p hp
    have : p.1 ∈ akeys connections := List.mem_map.mpr ⟨p, hp, rfl⟩
    simp [this]

/-- Witness for C8 (amended) at concrete inputs: absent name, successful
teardown, raising teardown, and a batch whose first teardown raises
while the second succeeds. -/
theorem disconnect_tolerates_failures_witness :
    MCPClient.disconnect_server [("alpha", ConnectionVariant.http)] "beta"
      (Except.ok ()) = [("alpha", ConnectionVariant.http)]
    ∧ MCPClient.disconnect_server [("alpha", ConnectionVariant.http)] "alpha"
      (Except.ok ()) = []
    ∧ MCPClient.disconnect_server [("alpha", ConnectionVariant.http)] "alpha"
      (Except.error "close failed") = [("alpha", ConnectionVariant.http)]
    ∧ MCPClient.disconnect_all
        [("alpha", ConnectionVariant.http), ("beta", ConnectionVariant.sse)]
        (fun n => if n = "alpha" then Except.error "close failed" else Except.ok ()) =
      [("alpha", ConnectionVariant.http)] := by
  refine ⟨?_, ?_, ?_, ?_⟩
  · exact (disconnect_tolerates_failures [("alpha", ConnectionVariant.http)] "beta"
      (Except.ok ()) (fun _ => Except.ok ())).1 rfl
  · have h := (disconnect_tolerates_failures [("alpha", ConnectionVariant.http)] "alpha"
      (Except.ok ()) (fun _ => Except.ok ())).2.1 ConnectionVariant.http rfl rfl
    simpa [aerase] using h
  · exact (disconnect_tolerates_failures [("alpha", ConnectionVariant.http)] "alpha"
      (Except.error "close failed") (fun _ => Except.ok ())).2.2.1
      ConnectionVariant.http rfl rfl
  · have h := (disconnect_tolerates_failures
      [("alpha", ConnectionVariant.http), ("beta", ConnectionVariant.sse)] "alpha"
      (Except.ok ())
      (fun n => if n = "alpha" then Except.error "close failed" else Except.ok ())).2.2.2
    simpa [exceptOk] using h

/-- C6: connecting with an unrecognized transport kind fails with
`MCPConfigurationError` and leaves the connection map unchanged, with an
outcome independent of any connection behavior (the factory raises
before a connection object exists); an absent `type` key selects the
stdio variant. -/
theorem connect_server_unknown_type_rejected
    (connections : List (String × ConnectionVariant)) (name : String)
    (config : ServerConfig) (t : String)
    (ht : config.connType = some t)
    (h1 : t ≠ "stdio") (h2 : t ≠ "http") (h3 : t ≠ "sse") :
    (∀ co, MCPClient.connect_server connections name config co =
      (connections,
        Except.error (MCPError.configuration ("Unknown connection type: " ++ t))))
    ∧ (∀ cfg : ServerConfig, cfg.connType = none →
        MCPClient.create_connection cfg = Except.ok ConnectionVariant.stdio) := by
  constructor
  · intro co
    simp [MCPClient.connect_server, MCPClient.create_connection, ht, h1, h2, h3]
  · intro cfg hc
    simp [MCPClient.create_connection, hc]

/-- Witness for C6: an unknown kind `websocket` is rejected with the map
untouched, and a configuration without a `type` key yields stdio. -/
theorem connect_server_unknown_type_rejected_witness :
    MCPClient.connect_server [("beta", ConnectionVariant.http)] "alpha"
        ⟨some "websocket"⟩ (fun _ => Except.ok true) =
      ([("beta", ConnectionVariant.http)],
        Except.error (MCPError.configuration "Unknown connection type: websocket"))
    ∧ MCPClient.create_connection ⟨none⟩ = Except.ok ConnectionVariant.stdio := by
  constructor
  · have h := (connect_server_unknown_type_rejected [("beta", ConnectionVariant.http)]
      "alpha" ⟨some "websocket"⟩ "websocket" rfl (by decide) (by decide) (by decide)).1
      (fun _ => Except.ok true)
    simpa using h
  · exact (connect_server_unknown_type_rejected [] "x" ⟨some "websocket"⟩ "websocket"
      rfl (by decide) (by decide) (by decide)).2 ⟨none⟩ rfl

/-! ## Claim theorems: HTTP and SSE connections -/

/-- C4 counterexample: with the client set, a 404 on `call_tool` raises
`MCPConnectionError`, not `MCPNotFoundError`, and a 401 raises
`MCPConnectionError`, not `MCPAuthenticationError`; likewise for
`read_resource` (the source's `except httpx.HTTPStatusError` clauses
raise `MCPConnectionError` on every status). -/
theorem http_errors_not_typed_counterexample :
    isNotFoundResult (HttpConnection.call_tool true "srv" "t"
      (HttpOutcome.statusError 404 "nf")) = false
    ∧ isAuthenticationResult (HttpConnection.call_tool true "srv" "t"
      (HttpOutcome.statusError 401 "Unauthorized")) = false
    ∧ isNotFoundResult (HttpConnection.read_resource true "srv" "u"
      (HttpOutcome.statusError 404 "nf")) = false
    ∧ isAuthenticationResult (HttpConnection.read_resource true "srv" "u"
      (HttpOutcome.statusError 401 "Unauthorized")) = false :=
  ⟨rfl, rfl, rfl, rfl⟩

/-- C4 as amended: `call_tool` and `read_resource` raise when not
connected; on a failing request they always raise `MCPConnectionError` —
a 404 status with a not-found message, any other status with the
response text, and request-level failures with the exception message. -/
theorem http_failures_raise_connection_error (name tool_name uri text msg : String)
    (code : Nat) (o : HttpOutcome) :
    (HttpConnection.call_tool false name tool_name o =
      Except.error (MCPError.connection ("Server " ++ name ++ " not connected")))
    ∧ (HttpConnection.read_resource false name uri o =
      Except.error (MCPError.connection ("Server " ++ name ++ " not connected")))
    ∧ (HttpConnection.call_tool true name tool_name (HttpOutcome.statusError 404 text) =
      Except.error (MCPError.connection ("Tool " ++ tool_name ++ " not found")))
    ∧ (code ≠ 404 →
      HttpConnection.call_tool true name tool_name (HttpOutcome.statusError code text) =
        Except.error (MCPError.connection ("Tool call failed: " ++ text)))
    ∧ (HttpConnection.call_tool true name tool_name (HttpOutcome.requestError msg) =
      Except.error (MCPError.connection
        ("Failed to call tool " ++ tool_name ++ ": " ++ msg)))
    ∧ (HttpConnection.read_resource true name uri (HttpOutcome.statusError 404 text) =
      Except.error (MCPError.connection ("Resource " ++ uri ++ " not found")))
    ∧ (code ≠ 404 →
      HttpConnection.read_resource true name uri (HttpOutcome.statusError code text) =
        Except.error (MCPError.connection ("Resource read failed: " ++ text)))
    ∧ (HttpConnection.read_resource true name uri (HttpOutcome.requestError msg) =
      Except.error (MCPError.connection
        ("Failed to read resource " ++ uri ++ ": " ++ msg))) := by
  refine ⟨rfl, rfl, rfl, ?_, rfl, rfl, ?_, rfl⟩
  · intro hc
    simp [HttpConnection.call_tool, hc]
  · intro hc
    simp [HttpConnection.read_resource, hc]

/-- Witness for C4 (amended) at concrete inputs, including a non-404
status (500). -/
theorem http_failures_raise_connection_error_witness :
    HttpConnection.call_tool false "srv" "t" (HttpOutcome.success PyValue.null) =
      Except.error (MCPError.connection "Server srv not connected")
    ∧ HttpConnection.call_tool true "srv" "t" (HttpOutcome.statusError 500 "ise") =
      Except.error (MCPError.connection "Tool call failed: ise")
    ∧ HttpConnection.read_resource true "srv" "u" (HttpOutcome.statusError 500 "ise") =
      Except.error (MCPError.connection "Resource read failed: ise") := by
  refine ⟨?_, ?_, ?_⟩
  · have h := (http_failures_raise_connection_error "srv" "t" "u" "ise" "m" 500
      (HttpOutcome.success PyValue.null)).1
    simpa using h
  · have h := (http_failures_raise_connection_error "srv" "t" "u" "ise" "m" 500
      (HttpOutcome.success PyValue.null)).2.2.2.1 (by decide)
    simpa using h
  · have h := (http_failures_raise_connection_error "srv" "t" "u" "ise" "m" 500
      (HttpOutcome.success PyValue.null)).2.2.2.2.2.2.1 (by decide)
    simpa using h

/-- C5 counterexample: when the handshake has not completed after the
fixed wait, `connect()` raises `MCPConnectionError`, not the claimed
`MCPTimeoutError`. -/
theorem sse_connect_no_timeout_error_counterexample :
    isTimeoutResult (SSEConnection.connect "srv" false) = false
    ∧ SSEConnection.connect "srv" false =
      Except.error (MCPError.connection
        "Connection failed for srv: Connection failed to establish") :=
  ⟨rfl, rfl⟩

/-- C5 as amended: `connect()` waits a fixed 2-second sleep — not a wait
bounded by the configured timeout — before checking whether the
background session task reported the handshake complete; if the flag is
still clear it raises `MCPConnectionError`, never `MCPTimeoutError`, and
if set it returns `True`. -/
theorem sse_connect_fixed_sleep_connection_error (name : String) :
    SSEConnection.connectWaitSeconds = 2
    ∧ SSEConnection.connect name true = Except.ok true
    ∧ SSEConnection.connect name false =
      Except.error (MCPError.connection
        ("Connection failed for " ++ name ++ ": Connection failed to establish"))
    ∧ ∀ b, isTimeoutResult (SSEConnection.connect name b) = false := by
  refine ⟨rfl, rfl, rfl, ?_⟩
  intro b
  cases b <;> rfl

end Terminai
